import Mathlib

/-!
Shallow embedding of the validation and user-management logic of the
professional-registration backend (files `user_model_em.py`,
`user_serializer.py`, `user_view.py`).

Strings are modelled as Lean `String`; Python string length is code-point
count, matching `String.length`.  Regular-expression checks are translated
to explicit character predicates with Python `re` semantics (in particular,
an unflagged `$` matches at the end of the subject or just before one final
newline, and the validators call `re.search`).  The explicit character
classes `[A-Z]` and `[0-9]` are ASCII, matching `Char.isUpper` /
`Char.isDigit`; the Unicode-aware classes `\d` and `\s` of str patterns
are modelled by the decimal-digit and whitespace tables of CPython's
Unicode database (UCD 14.0, Python 3.11).
-/

/-- The fixed punctuation set of `validate_password_strength`
(the character class of the regex in `user_model_em.py`). -/
def passwordSymbols : List Char :=
  ['!', '@', '#', '$', '%', '^', '&', '*', '(', ')', ',', '.', '?',
   '"', ':', '{', '}', '|', '<', '>']

/-- Password-strength check of `user_model_em.py`: raises
`ValidationError` (modelled as `Except.error` with the source message)
unless the length is in `[8, 15]` and the password contains an ASCII
uppercase letter, an ASCII digit and a character of `passwordSymbols`. -/
def validate_password_strength (password : String) : Except String Unit :=
  if ¬ (8 ≤ password.length ∧ password.length ≤ 15) then
    Except.error "Şifrə 8-15 simvol arasında olmalıdır."
  else if ¬ (password.toList.any Char.isUpper = true) then
    Except.error "Şifrədə ən azı bir böyük hərf olmalıdır."
  else if ¬ (password.toList.any Char.isDigit = true) then
    Except.error "Şifrədə ən azı bir rəqəm olmalıdır."
  else if ¬ (password.toList.any (fun c => decide (c ∈ passwordSymbols)) = true) then
    Except.error "Şifrədə ən azı bir simvol olmalıdır."
  else
    Except.ok ()

/-- The code-point ranges of the Unicode general category Nd (decimal
digit): exactly the characters matched by `\d` in a Python str pattern
(CPython's `Py_UNICODE_ISDECIMAL`, UCD 14.0). -/
def ndDigitRanges : List (Nat × Nat) :=
  [(0x30, 0x39), (0x660, 0x669), (0x6F0, 0x6F9), (0x7C0, 0x7C9),
   (0x966, 0x96F), (0x9E6, 0x9EF), (0xA66, 0xA6F), (0xAE6, 0xAEF),
   (0xB66, 0xB6F), (0xBE6, 0xBEF), (0xC66, 0xC6F), (0xCE6, 0xCEF),
   (0xD66, 0xD6F), (0xDE6, 0xDEF), (0xE50, 0xE59), (0xED0, 0xED9),
   (0xF20, 0xF29), (0x1040, 0x1049), (0x1090, 0x1099), (0x17E0, 0x17E9),
   (0x1810, 0x1819), (0x1946, 0x194F), (0x19D0, 0x19D9), (0x1A80, 0x1A89),
   (0x1A90, 0x1A99), (0x1B50, 0x1B59), (0x1BB0, 0x1BB9), (0x1C40, 0x1C49),
   (0x1C50, 0x1C59), (0xA620, 0xA629), (0xA8D0, 0xA8D9), (0xA900, 0xA909),
   (0xA9D0, 0xA9D9), (0xA9F0, 0xA9F9), (0xAA50, 0xAA59), (0xABF0, 0xABF9),
   (0xFF10, 0xFF19), (0x104A0, 0x104A9), (0x10D30, 0x10D39),
   (0x11066, 0x1106F), (0x110F0, 0x110F9), (0x11136, 0x1113F),
   (0x111D0, 0x111D9), (0x112F0, 0x112F9), (0x11450, 0x11459),
   (0x114D0, 0x114D9), (0x11650, 0x11659), (0x116C0, 0x116C9),
   (0x11730, 0x11739), (0x118E0, 0x118E9), (0x11950, 0x11959),
   (0x11C50, 0x11C59), (0x11D50, 0x11D59), (0x11DA0, 0x11DA9),
   (0x16A60, 0x16A69), (0x16AC0, 0x16AC9), (0x16B50, 0x16B59),
   (0x1D7CE, 0x1D7FF), (0x1E140, 0x1E149), (0x1E2F0, 0x1E2F9),
   (0x1E950, 0x1E959), (0x1FBF0, 0x1FBF9)]

/-- A character matched by `\d` in a Python str pattern: any Unicode
decimal digit (category Nd), not only ASCII `0-9`. -/
def pyIsDecimalDigit (c : Char) : Bool :=
  ndDigitRanges.any (fun r => decide (r.1 ≤ c.toNat) && decide (c.toNat ≤ r.2))

/-- Mobile-number check of `user_model_em.py`: Django's
`RegexValidator` runs `re.search` with the str pattern `^\d{9}$`.
Under Python `re` semantics this matches exactly when the subject is
nine Unicode decimal digits followed by nothing, or nine such digits
followed by one final newline (an unflagged `$` also matches just
before a trailing `'\n'`). -/
def mobile_number_validator (s : String) : Bool :=
  let l := s.toList
  (decide ((l.take 9).length = 9) && (l.take 9).all pyIsDecimalDigit) &&
    (decide (l.drop 9 = []) || decide (l.drop 9 = ['\n']))

/-- Letters of the character class of `validate_education_major` beyond
ASCII `A-Za-z`: the extended Azerbaijani letters listed in the regex. -/
def azExtraLetters : List Char :=
  ['Ə', 'ə', 'Ö', 'ö', 'Ü', 'ü', 'Ğ', 'ğ', 'Ş', 'ş', 'Ç', 'ç', 'İ', 'ı']

/-- The code points matched by `\s` in a Python str pattern: CPython's
`Py_UNICODE_ISSPACE` set (UCD 14.0) — the ASCII whitespace controls,
the information separators 0x1C-0x1F, and the Unicode whitespace
characters such as NO-BREAK SPACE and the general-punctuation spaces. -/
def pythonWhitespaceCodes : List Nat :=
  [0x9, 0xA, 0xB, 0xC, 0xD, 0x1C, 0x1D, 0x1E, 0x1F, 0x20, 0x85, 0xA0,
   0x1680, 0x2000, 0x2001, 0x2002, 0x2003, 0x2004, 0x2005, 0x2006,
   0x2007, 0x2008, 0x2009, 0x200A, 0x2028, 0x2029, 0x202F, 0x205F, 0x3000]

/-- A character matched by `\s` in a Python str pattern. -/
def pythonWhitespace (c : Char) : Bool :=
  decide (c.toNat ∈ pythonWhitespaceCodes)

/-- One character of the class `[A-Za-zƏəÖöÜüĞğŞşÇçİı\s\-]` used by
`validate_education_major`. -/
def educationMajorChar (c : Char) : Bool :=
  c.isAlpha || decide (c ∈ azExtraLetters) || pythonWhitespace c || c == '-'

/-- Field validator `UserAdditionalInfo.validate_education_major`
(`always=True`): `education` is the previously validated value from
`values` (`none` when absent), `v` the submitted `education_major`.
When `education ≠ 'Yoxdur'` the value is required (`not v` rejects both
`None` and the empty string) and must fully match the character class;
otherwise `v` is returned unchecked.  (Pydantic's `max_length=50` field
constraint is separate from this validator and not modelled here.) -/
def validate_education_major (education : Option String) (v : Option String) :
    Except String (Option String) :=
  if education ≠ some "Yoxdur" then
    match v with
    | none => Except.error "Təhsil ixtisası daxil edilməlidir."
    | some s =>
      if s.isEmpty then Except.error "Təhsil ixtisası daxil edilməlidir."
      else if s.toList.all educationMajorChar then Except.ok (some s)
      else Except.error "Yalnız Azərbaycan hərfləri ilə yazılmalıdır."
  else Except.ok v

/-- The fixed allowed language set of `validate_languages`. -/
def allowedLanguages : List String := ["Azərbaycan", "Rus", "İngilis", "Türk"]

/-- Field validator `UserAdditionalInfo.validate_languages`: empty list
rejected first, then the loop raises at the first language outside
`allowedLanguages`. -/
def validate_languages (v : List String) : Except String (List String) :=
  if v.isEmpty then Except.error "Ən azı bir dil seçilməlidir."
  else
    match v.find? (fun lang => !decide (lang ∈ allowedLanguages)) with
    | some lang => Except.error ("İcazə verilməyən dil: " ++ lang)
    | none => Except.ok v

/-- The allow-list `ALLOWED_IMAGE_EXTENSIONS` of `user_model_em.py`. -/
def ALLOWED_IMAGE_EXTENSIONS : List String := [".jpg", ".png"]

/-- Index of the last occurrence of a character in a list, if any
(Python's `str.rfind`). -/
def lastIdxOf (target : Char) (l : List Char) : Option Nat :=
  ((List.range l.length).filter (fun i => decide (l.get? i = some target))).getLast?

/-- Extension part of POSIX `os.path.splitext`: everything from the
last dot on, provided that dot lies inside the basename (after the
last `'/'`) and the basename has a non-dot character before it — so
`"dir/a.jpg"` has extension `".jpg"` while `".jpg"`, `"dir/.jpg"` and
`"a/b.c/d"` have none. -/
def splitextExt (l : List Char) : List Char :=
  let start : Nat :=
    match lastIdxOf '/' l with
    | none => 0
    | some s => s + 1
  match lastIdxOf '.' l with
  | none => []
  | some i =>
    if i < start then []
    else if ((l.drop start).take (i - start)).all (fun c => c == '.') then []
    else l.drop i

/-- Extension of a filename as computed in the validators:
`os.path.splitext(filename.lower())` with POSIX path rules
(lowercasing modelled on ASCII, which decides membership in the ASCII
allow-list). -/
def pyExt (filename : String) : String :=
  String.mk (splitextExt (filename.toList.map Char.toLower))

/-- Field validator `UserAdditionalInfo.validate_portfolio_images`: a
falsy value (absent or empty list) is returned as-is; otherwise more
than 10 items is rejected, then the loop raises at the first filename
whose extension is outside `ALLOWED_IMAGE_EXTENSIONS`. -/
def validate_portfolio_images (v : Option (List String)) :
    Except String (Option (List String)) :=
  match v with
  | none => Except.ok none
  | some l =>
    if l.isEmpty then Except.ok (some l)
    else if 10 < l.length then Except.error "Ən çox 10 şəkil yükləyə bilərsiniz."
    else
      match l.find? (fun filename => !decide (pyExt filename ∈ ALLOWED_IMAGE_EXTENSIONS)) with
      | some filename => Except.error (filename ++ " - icazəsiz format (yalnız jpg və png).")
      | none => Except.ok (some l)

/-- The list `CustomUser.GENDER_CHOICES` from `user_model_em.py`. -/
def GENDER_CHOICES : List (String × String) := [("Q", "Qadın"), ("K", "Kişi")]

/-- Modelled from the spec: Django's `choices` enforcement (framework
code not in this repository) rejects with `InvalidChoice` any submitted
gender value that is not a key of `GENDER_CHOICES`. -/
def validate_gender (v : String) : Bool :=
  decide (v ∈ GENDER_CHOICES.map Prod.fst)

/-- Modelled from the spec: the stored credential produced by Django's
`set_password` (framework code, not in this repository) — a salted hash
of the raw password, structurally distinct from any raw string, and an
unusable hash when the raw password is `None`. -/
inductive StoredCredential where
  | hashed (salt : Nat) (raw : Option String)
deriving DecidableEq, Repr

/-- Modelled from the spec: `set_password` stores a salted hash of the
raw password, never the raw password itself. -/
def set_password (salt : Nat) (raw : Option String) : StoredCredential :=
  StoredCredential.hashed salt raw

/-- The fields of `CustomUser` that `create_user` touches; the remaining
`extra_fields` are passed through opaquely as key/value pairs. -/
structure CUser where
  mobile_number : String
  password : StoredCredential
  extra_fields : List (String × String)
deriving DecidableEq, Repr

/-- Failures of `CustomUserManager.create_user`: the `ValueError` for a
missing mobile number, or the propagated `ValidationError` of
`validate_password_strength`. -/
inductive CreateErr where
  | missingIdentifier (msg : String)
  | weakPassword (msg : String)
deriving DecidableEq, Repr

/-- Outcome of a successful `create_user`: the built user, the persisted
store after `user.save()`, and whether `validate_password_strength` was
invoked on the way. -/
structure CreateResult where
  user : CUser
  db : List CUser
  validatorRan : Bool
deriving DecidableEq, Repr

/-- Python truthiness of the optional `password` argument: `None` and
the empty string are falsy. -/
def pyTruthy (password : Option String) : Bool :=
  match password with
  | none => false
  | some s => !s.isEmpty

/-- The guarded strength check of `create_user`: the statement
`if password: validate_password_strength(password)` — the validator runs
only when `password` is truthy, and its `ValidationError` propagates as
`weakPassword`. -/
def password_strength_gate (password : Option String) : Except CreateErr Unit :=
  if pyTruthy password then
    match password with
    | some p =>
      match validate_password_strength p with
      | Except.error msg => Except.error (CreateErr.weakPassword msg)
      | Except.ok _ => Except.ok ()
    | none => Except.ok ()
  else Except.ok ()

/-- Operation `CustomUserManager.create_user` from `user_model_em.py`: raises
`ValueError` when `mobile_number` is falsy (empty); runs the guarded
strength check; then builds the user, calls `set_password(password)`
and saves it (modelled as appending to the store).  The salt stands for
the randomness consumed by hashing; `validatorRan` records whether
`validate_password_strength` was invoked. -/
def create_user (db : List CUser) (salt : Nat) (mobile_number : String)
    (password : Option String) (extra_fields : List (String × String)) :
    Except CreateErr CreateResult :=
  if mobile_number.isEmpty then
    Except.error (CreateErr.missingIdentifier "Mobil nömrə daxil edilməlidir.")
  else
    match password_strength_gate password with
    | Except.error e => Except.error e
    | Except.ok _ =>
      let user : CUser :=
        { mobile_number := mobile_number
          password := set_password salt password
          extra_fields := extra_fields }
      Except.ok { user := user, db := db ++ [user], validatorRan := pyTruthy password }

/-- A stored user as the login path sees it. -/
structure AuthUser where
  id : Nat
  first_name : String
  last_name : String
  mobile_number : String
  password : StoredCredential
  is_active : Bool
deriving DecidableEq, Repr

/-- Modelled from the spec: verifying a submitted password against the
stored salted hash succeeds exactly when the hash was produced from
that raw password. -/
def check_password (raw : String) (stored : StoredCredential) : Bool :=
  match stored with
  | StoredCredential.hashed _ r => r == some raw

/-- Modelled from the spec: the framework `authenticate` call performs
steps (1) and (2) of the login handler — look up the user by mobile
number, then verify the password hash — returning `none` on either
failure without distinguishing them. -/
def authenticate (db : List AuthUser) (mobile_number password : String) : Option AuthUser :=
  match db.find? (fun u => u.mobile_number == mobile_number) with
  | none => none
  | some u => if check_password password u.password then some u else none

/-- Validation step `LoginSerializer.validate` (present in `user_serializer.py` as
commented-out code, and fixed by the spec's login-handler steps):
both fields required, then `authenticate`, a single
credentials-invalid message when it returns no user, then the
`is_active` check with its own message. -/
def LoginSerializer_validate (db : List AuthUser) (mobile_number password : String) :
    Except String AuthUser :=
  if mobile_number.isEmpty || password.isEmpty then
    Except.error "Nömrə və şifrə mütləqdir."
  else
    match authenticate db mobile_number password with
    | none => Except.error "Nömrə və ya şifrə yanlışdır."
    | some user =>
      if !user.is_active then Except.error "Hesab deaktiv olunub."
      else Except.ok user

/-- A refresh/access token pair. -/
structure TokenPair where
  refresh : String
  access : String
deriving DecidableEq, Repr

/-- Modelled from the spec: the token issuer mints a refresh/access
pair bound to the user's identity. -/
def RefreshToken_for_user (u : AuthUser) : TokenPair :=
  { refresh := "refresh:" ++ toString u.id, access := "access:" ++ toString u.id }

/-- Body of the 200 response of `LoginView.post`. -/
structure LoginSuccess where
  message : String
  id : Nat
  full_name : String
  mobile_number : String
  tokens : TokenPair
deriving DecidableEq, Repr

/-- The two responses `LoginView.post` can produce: HTTP 200 with the
success body, or HTTP 400 carrying the serializer's error. -/
inductive LoginResponse where
  | ok200 (body : LoginSuccess)
  | bad400 (errors : String)
deriving DecidableEq, Repr

/-- Handler `LoginView.post` from `user_view.py`: on valid serializer data,
issue the token pair for the user and answer 200 with message, user
summary and tokens; otherwise answer 400 with the serializer errors. -/
def LoginView_post (db : List AuthUser) (mobile_number password : String) : LoginResponse :=
  match LoginSerializer_validate db mobile_number password with
  | Except.error e => LoginResponse.bad400 e
  | Except.ok user =>
    LoginResponse.ok200
      { message := "Uğurlu giriş"
        id := user.id
        full_name := user.first_name ++ " " ++ user.last_name
        mobile_number := user.mobile_number
        tokens := RefreshToken_for_user user }

example : validate_password_strength "Passw0rd!" = Except.ok () := rfl
example : validate_password_strength "password" =
    Except.error "Şifrədə ən azı bir böyük hərf olmalıdır." := rfl
example : validate_password_strength "P1!" =
    Except.error "Şifrə 8-15 simvol arasında olmalıdır." := rfl
example : mobile_number_validator "501234567" = true := by decide
example : mobile_number_validator "50123456" = false := by decide
example : mobile_number_validator "50-123-4567" = false := by decide
example : mobile_number_validator "123456789\n" = true := by decide
example : mobile_number_validator "123456789\n\n" = false := by decide
example : mobile_number_validator "1234567890" = false := by decide
example : validate_education_major (some "Orta") (some "ab cd") = Except.ok (some "ab cd") := rfl
example : validate_education_major (some "Orta") (some "ab1") =
    Except.error "Yalnız Azərbaycan hərfləri ilə yazılmalıdır." := rfl
example : validate_education_major (some "Orta") none =
    Except.error "Təhsil ixtisası daxil edilməlidir." := rfl
example : validate_education_major (some "Yoxdur") none = Except.ok none := rfl
example : validate_languages [] = Except.error "Ən azı bir dil seçilməlidir." := rfl
example : validate_languages ["Rus", "Alman"] = Except.error "İcazə verilməyən dil: Alman" := rfl
example : validate_languages ["Rus", "Türk"] = Except.ok ["Rus", "Türk"] := rfl
example : pyExt "Photo.GIF" = ".gif" := by decide
example : pyExt "photo.jpg" = ".jpg" := by decide
example : pyExt ".jpg" = "" := by decide
example : pyExt "noext" = "" := by decide
example : validate_portfolio_images (some ["a.jpg", "photo.gif", "b.png"]) =
    Except.error "photo.gif - icazəsiz format (yalnız jpg və png)." := rfl
example : validate_gender "Q" = true ∧ validate_gender "M" = false := by decide
example : mobile_number_validator "٥٥٥٥٥٥٥٥٥" = true := by decide
example : validate_education_major (some "Orta") (some "ab\u00A0cd") =
    Except.ok (some "ab\u00A0cd") := rfl
example : pyExt "dir/.jpg" = "" := by decide
example : pyExt "dir/a.jpg" = ".jpg" := by decide
example : pyExt "a/b.c/d" = "" := by decide
example : validate_portfolio_images (some ["dir/.jpg"]) =
    Except.error "dir/.jpg - icazəsiz format (yalnız jpg və png)." := rfl

/-- C1: for every password string `p`, `validate_password_strength p`
succeeds exactly when `8 ≤ len p ≤ 15`, `p` contains an ASCII uppercase
letter, an ASCII decimal digit, and a symbol of the fixed punctuation
set; otherwise it fails (`WeakPassword`). -/
theorem validate_password_strength_ok_iff (p : String) :
    validate_password_strength p = Except.ok () ↔
      ((8 ≤ p.length ∧ p.length ≤ 15) ∧
       (∃ c ∈ p.toList, c.isUpper = true) ∧
       (∃ c ∈ p.toList, c.isDigit = true) ∧
       (∃ c ∈ p.toList, c ∈ passwordSymbols)) := by
  unfold validate_password_strength
  repeat' split
  all_goals simp_all [List.any_eq_true]

/-- C2, counterexample: the string of nine digits followed by a newline
is accepted by the mobile-number validator although it does not consist
of nine decimal digits only — Django's `RegexValidator` runs Python
`re.search`, whose `$` also matches before one trailing newline. -/
theorem mobile_number_validator_trailing_newline :
    mobile_number_validator "123456789\n" = true ∧
      ¬ (("123456789\n").toList.length = 9 ∧
         ∀ c ∈ ("123456789\n").toList, pyIsDecimalDigit c = true) := by
  decide

/-- C2, amended: the mobile-number validator accepts `m` exactly when
`m` is nine Unicode decimal digits (category Nd, Python `\d`),
optionally followed by one trailing newline; every other string fails
(`InvalidFormat`). -/
theorem mobile_number_validator_iff (m : String) :
    mobile_number_validator m = true ↔
      ∃ ds : List Char, ds.length = 9 ∧ (∀ c ∈ ds, pyIsDecimalDigit c = true) ∧
        (m.toList = ds ∨ m.toList = ds ++ ['\n']) := by
  unfold mobile_number_validator
  simp only [Bool.and_eq_true, Bool.or_eq_true, decide_eq_true_eq, List.all_eq_true]
  constructor
  · rintro ⟨⟨hlen, hdig⟩, hrest⟩
    refine ⟨m.toList.take 9, hlen, hdig, ?_⟩
    rcases hrest with h | h
    · left
      have hsplit := List.take_append_drop 9 m.toList
      rw [h, List.append_nil] at hsplit
      exact hsplit.symm
    · right
      have hsplit := List.take_append_drop 9 m.toList
      rw [h] at hsplit
      exact hsplit.symm
  · rintro ⟨ds, hlen, hdig, h | h⟩
    · rw [h]
      have ht : ds.take 9 = ds := by
        rw [← hlen]; exact List.take_length ds
      have hd : ds.drop 9 = [] := by
        apply List.drop_eq_nil_of_le; omega
      exact ⟨⟨by rw [ht]; exact hlen, by rw [ht]; exact hdig⟩, Or.inl hd⟩
    · rw [h]
      have ht : (ds ++ ['\n']).take 9 = ds := List.take_left' hlen
      have hd : (ds ++ ['\n']).drop 9 = ['\n'] := List.drop_left' hlen
      exact ⟨⟨by rw [ht]; exact hlen, by rw [ht]; exact hdig⟩, Or.inr hd⟩

/-- C4, counterexample: with education `"Orta"` (not the sentinel), the
majors `"ab cd"` and `"ab-cd"` are accepted although they contain a
space and a hyphen — the regex class of `validate_education_major`
includes `\s` and `-`, so spaces and hyphens are not rejected. -/
theorem validate_education_major_accepts_space_hyphen :
    validate_education_major (some "Orta") (some "ab cd") = Except.ok (some "ab cd") ∧
    ' ' ∈ "ab cd".toList ∧
    validate_education_major (some "Orta") (some "ab-cd") = Except.ok (some "ab-cd") ∧
    '-' ∈ "ab-cd".toList := by
  exact ⟨rfl, by decide, rfl, by decide⟩

/-- C4, amended: when education is not the sentinel `"Yoxdur"`,
`education_major` is required (`None` and the empty string fail) and a
non-empty value is accepted exactly when each character is an ASCII or
extended-Azerbaijani letter, a whitespace character, or a hyphen; when
education equals the sentinel, the value is passed through unchecked. -/
theorem validate_education_major_spec (education : Option String) (v : Option String) :
    (education ≠ some "Yoxdur" →
      ((v = none ∨ v = some "") →
        validate_education_major education v =
          Except.error "Təhsil ixtisası daxil edilməlidir.") ∧
      (∀ s, v = some s → s.isEmpty = false →
        (validate_education_major education v = Except.ok v ↔
          ∀ c ∈ s.toList,
            (c.isAlpha = true ∨ c ∈ azExtraLetters ∨
             pythonWhitespace c = true ∨ c = '-')))) ∧
    (education = some "Yoxdur" → validate_education_major education v = Except.ok v) := by
  refine ⟨fun hne => ⟨?_, ?_⟩, fun he => ?_⟩
  · rintro (rfl | rfl)
    · simp [validate_education_major, hne]
    · simp [validate_education_major, hne]
      rfl
  · intro s hv hs
    subst hv
    rw [validate_education_major, if_pos hne]
    simp only [hs, Bool.false_eq_true, if_false]
    have hiff : s.toList.all educationMajorChar = true ↔
        ∀ c ∈ s.toList, (c.isAlpha = true ∨ c ∈ azExtraLetters ∨
          pythonWhitespace c = true ∨ c = '-') := by
      simp only [List.all_eq_true, educationMajorChar, Bool.or_eq_true,
        decide_eq_true_eq, beq_iff_eq]
      constructor
      · intro h c hc
        have := h c hc
        tauto
      · intro h c hc
        have := h c hc
        tauto
    split
    · next hall => simp only [true_iff]; exact hiff.mp hall
    · next hall =>
      constructor
      · intro h; exact absurd h (by simp)
      · intro h; exact absurd (hiff.mpr h) hall
  · subst he
    cases v <;> simp [validate_education_major]

/-- C8, counterexample: the fixed gender choices of `CustomUser` are
`Q` (Qadın) and `K` (Kişi), not `M` and `F`: both `M` and `F` are
rejected while `Q` is accepted. -/
theorem gender_choices_not_MF :
    validate_gender "M" = false ∧ validate_gender "F" = false ∧
    validate_gender "Q" = true ∧
    GENDER_CHOICES.map Prod.fst = ["Q", "K"] := by
  decide

/-- C8, amended: a stored gender value is valid exactly when it is one
of the two keys `Q` and `K` of `GENDER_CHOICES`; every other submitted
value (including `M` and `F`) is rejected (`InvalidChoice`). -/
theorem validate_gender_iff (v : String) :
    validate_gender v = true ↔ (v = "Q" ∨ v = "K") := by
  simp [validate_gender, GENDER_CHOICES]

/-- C9: `validate_languages` fails with the empty-selection message on
the empty list, fails with the invalid-choice message naming an
offending element when some element is outside the fixed allowed set,
and succeeds exactly when the list is non-empty and every element is
allowed. -/
theorem validate_languages_spec (v : List String) :
    (v = [] → validate_languages v = Except.error "Ən azı bir dil seçilməlidir.") ∧
    ((∃ lang ∈ v, lang ∉ allowedLanguages) →
      ∃ lang ∈ v, lang ∉ allowedLanguages ∧
        validate_languages v = Except.error ("İcazə verilməyən dil: " ++ lang)) ∧
    (validate_languages v = Except.ok v ↔
      (v ≠ [] ∧ ∀ lang ∈ v, lang ∈ allowedLanguages)) := by
  refine ⟨fun hv => by simp [validate_languages, hv], ?_, ?_⟩
  · rintro ⟨lang, hmem, hbad⟩
    have hne : v.isEmpty = false := by
      cases v
      · cases hmem
      · rfl
    have hsome : (v.find? (fun lang => !decide (lang ∈ allowedLanguages))).isSome := by
      rw [List.find?_isSome]
      exact ⟨lang, hmem, by simpa using hbad⟩
    obtain ⟨g, hg⟩ := Option.isSome_iff_exists.mp hsome
    refine ⟨g, List.mem_of_find?_eq_some hg, ?_, ?_⟩
    · simpa using List.find?_some hg
    · simp [validate_languages, hne, hg]
  · constructor
    · intro hok
      have hne : v.isEmpty = false := by
        cases v
        · simp [validate_languages] at hok
        · rfl
      have hnone : v.find? (fun lang => !decide (lang ∈ allowedLanguages)) = none := by
        by_contra hcon
        obtain ⟨g, hg⟩ := Option.ne_none_iff_exists'.mp hcon
        simp [validate_languages, hne, hg] at hok
      refine ⟨by simpa using hne, ?_⟩
      intro lang hmem
      have := List.find?_eq_none.mp hnone lang hmem
      simpa using this
    · rintro ⟨hne, hall⟩
      have hne' : v.isEmpty = false := by
        cases v
        · exact absurd rfl hne
        · rfl
      have hnone : v.find? (fun lang => !decide (lang ∈ allowedLanguages)) = none := by
        rw [List.find?_eq_none]
        intro lang hmem
        simpa using hall lang hmem
      simp [validate_languages, hne', hnone]

/-- C9, witness instances: the empty list is rejected with the
empty-selection message, `["Rus", "Alman"]` with the invalid-choice
message for `"Alman"`, and `["Rus", "Türk"]` is accepted. -/
theorem validate_languages_spec_witness :
    validate_languages [] = Except.error "Ən azı bir dil seçilməlidir." ∧
    (∃ lang ∈ ["Rus", "Alman"], lang ∉ allowedLanguages ∧
      validate_languages ["Rus", "Alman"] =
        Except.error ("İcazə verilməyən dil: " ++ lang)) ∧
    validate_languages ["Rus", "Türk"] = Except.ok ["Rus", "Türk"] :=
  ⟨(validate_languages_spec []).1 rfl,
   (validate_languages_spec ["Rus", "Alman"]).2.1 ⟨"Alman", by decide, by decide⟩,
   (validate_languages_spec ["Rus", "Türk"]).2.2.mpr ⟨by decide, by decide⟩⟩

/-- C5: `validate_portfolio_images` rejects a submitted list of more
than 10 filenames with the too-many message, rejects a list within the
limit containing a filename whose (case-insensitively compared)
extension is not `.jpg`/`.png` with the per-file format message, and
accepts any list of at most 10 filenames whose extensions are all
allowed. -/
theorem validate_portfolio_images_spec (l : List String) :
    (10 < l.length →
      validate_portfolio_images (some l) =
        Except.error "Ən çox 10 şəkil yükləyə bilərsiniz.") ∧
    (l.length ≤ 10 → (∃ f ∈ l, pyExt f ∉ ALLOWED_IMAGE_EXTENSIONS) →
      ∃ f ∈ l, pyExt f ∉ ALLOWED_IMAGE_EXTENSIONS ∧
        validate_portfolio_images (some l) =
          Except.error (f ++ " - icazəsiz format (yalnız jpg və png).")) ∧
    ((l.length ≤ 10 ∧ ∀ f ∈ l, pyExt f ∈ ALLOWED_IMAGE_EXTENSIONS) →
      validate_portfolio_images (some l) = Except.ok (some l)) := by
  refine ⟨?_, ?_, ?_⟩
  · intro hlen
    have hne : l.isEmpty = false := by
      cases l
      · simp at hlen
      · rfl
    simp [validate_portfolio_images, hne, hlen]
  · rintro hlen ⟨f, hmem, hbad⟩
    have hne : l.isEmpty = false := by
      cases l
      · cases hmem
      · rfl
    have hsome :
        (l.find? (fun g => !decide (pyExt g ∈ ALLOWED_IMAGE_EXTENSIONS))).isSome := by
      rw [List.find?_isSome]
      exact ⟨f, hmem, by simpa using hbad⟩
    obtain ⟨g, hg⟩ := Option.isSome_iff_exists.mp hsome
    refine ⟨g, List.mem_of_find?_eq_some hg, ?_, ?_⟩
    · simpa using List.find?_some hg
    · simp [validate_portfolio_images, hne, Nat.not_lt.mpr hlen, hg]
  · rintro ⟨hlen, hall⟩
    by_cases hne : l.isEmpty
    · simp [validate_portfolio_images, hne]
    · have hnone :
          l.find? (fun g => !decide (pyExt g ∈ ALLOWED_IMAGE_EXTENSIONS)) = none := by
        rw [List.find?_eq_none]
        intro g hmem
        simpa using hall g hmem
      simp [validate_portfolio_images, Bool.eq_false_iff.mpr hne,
        Nat.not_lt.mpr hlen, hnone]

/-- C5, witness instances: eleven filenames are rejected as too many,
ten valid jpg/png filenames are accepted, and a `photo.gif` among valid
filenames is rejected with its per-file format message. -/
theorem validate_portfolio_images_spec_witness :
    validate_portfolio_images (some ["01.jpg", "02.jpg", "03.jpg", "04.jpg", "05.jpg",
        "06.jpg", "07.jpg", "08.jpg", "09.jpg", "10.jpg", "11.jpg"]) =
      Except.error "Ən çox 10 şəkil yükləyə bilərsiniz." ∧
    validate_portfolio_images (some ["01.jpg", "02.JPG", "03.png", "04.PNG", "05.jpg",
        "06.jpg", "07.png", "08.jpg", "09.png", "10.jpg"]) =
      Except.ok (some ["01.jpg", "02.JPG", "03.png", "04.PNG", "05.jpg",
        "06.jpg", "07.png", "08.jpg", "09.png", "10.jpg"]) ∧
    (∃ f ∈ ["a.jpg", "photo.gif", "b.png"], pyExt f ∉ ALLOWED_IMAGE_EXTENSIONS ∧
      validate_portfolio_images (some ["a.jpg", "photo.gif", "b.png"]) =
        Except.error (f ++ " - icazəsiz format (yalnız jpg və png).")) :=
  ⟨(validate_portfolio_images_spec _).1 (by decide),
   (validate_portfolio_images_spec _).2.2 ⟨by decide, by decide⟩,
   (validate_portfolio_images_spec ["a.jpg", "photo.gif", "b.png"]).2.1
     (by decide) ⟨"photo.gif", by decide, by decide⟩⟩

/-- C3: `create_user` fails with the missing-identifier error on an
empty mobile number; with a non-empty mobile number and a truthy
password failing the strength check, it propagates that failure as
`weakPassword`; and every successful creation stores the salted hash of
the password (never the raw password), keeps the given mobile number
and extra fields, and persists the new user by appending it to the
store. -/
theorem create_user_spec (db : List CUser) (salt : Nat) (mobile_number : String)
    (password : Option String) (extra_fields : List (String × String)) :
    (mobile_number.isEmpty = true →
      create_user db salt mobile_number password extra_fields =
        Except.error (CreateErr.missingIdentifier "Mobil nömrə daxil edilməlidir.")) ∧
    (∀ p msg, mobile_number.isEmpty = false → password = some p →
      pyTruthy password = true →
      validate_password_strength p = Except.error msg →
      create_user db salt mobile_number password extra_fields =
        Except.error (CreateErr.weakPassword msg)) ∧
    (∀ r, create_user db salt mobile_number password extra_fields = Except.ok r →
      r.user.password = StoredCredential.hashed salt password ∧
      r.user.mobile_number = mobile_number ∧
      r.user.extra_fields = extra_fields ∧
      r.db = db ++ [r.user]) := by
  refine ⟨?_, ?_, ?_⟩
  · intro hm
    simp [create_user, hm]
  · intro p msg hm hp htruthy hval
    subst hp
    simp [create_user, hm, password_strength_gate, htruthy, hval]
  · intro r hr
    by_cases hm : mobile_number.isEmpty
    · simp [create_user, hm] at hr
    · rw [create_user, if_neg (by simp [hm])] at hr
      cases hgate : password_strength_gate password with
      | error e => rw [hgate] at hr; cases hr
      | ok u =>
        rw [hgate] at hr
        cases hr
        exact ⟨rfl, rfl, rfl, rfl⟩

/-- C3, witness instances: empty mobile number fails with the
missing-identifier error; a weak password is propagated; a successful
creation stores the salted hash and appends the user to the store. -/
theorem create_user_spec_witness :
    create_user [] 7 "" (some "Passw0rd!") [] =
      Except.error (CreateErr.missingIdentifier "Mobil nömrə daxil edilməlidir.") ∧
    create_user [] 7 "501234567" (some "short") [] =
      Except.error (CreateErr.weakPassword "Şifrə 8-15 simvol arasında olmalıdır.") ∧
    (∀ r, create_user [] 7 "501234567" (some "Passw0rd!") [] = Except.ok r →
      r.user.password = StoredCredential.hashed 7 (some "Passw0rd!") ∧
      r.db = [] ++ [r.user]) :=
  ⟨(create_user_spec [] 7 "" (some "Passw0rd!") []).1 rfl,
   (create_user_spec [] 7 "501234567" (some "short") []).2.1 "short"
     "Şifrə 8-15 simvol arasında olmalıdır." rfl rfl rfl rfl,
   fun r hr =>
     ⟨((create_user_spec [] 7 "501234567" (some "Passw0rd!") []).2.2 r hr).1,
      ((create_user_spec [] 7 "501234567" (some "Passw0rd!") []).2.2 r hr).2.2.2⟩⟩

/-- C10: with a non-empty mobile number and a falsy password (`None`
or the empty string), `create_user` never invokes the password-strength
validator and still creates the user, calling `set_password` with that
falsy value — even though the empty string itself would fail the
strength check. -/
theorem create_user_falsy_password_bypass (db : List CUser) (salt : Nat)
    (mobile_number : String) (extra_fields : List (String × String))
    (password : Option String)
    (hm : mobile_number.isEmpty = false)
    (hp : password = none ∨ password = some "") :
    ∃ r, create_user db salt mobile_number password extra_fields = Except.ok r ∧
      r.validatorRan = false ∧
      r.user.password = set_password salt password ∧
      ∃ e, validate_password_strength "" = Except.error e := by
  have htr : pyTruthy password = false := by
    rcases hp with rfl | rfl <;> rfl
  have hgate : password_strength_gate password = Except.ok () := by
    rcases hp with rfl | rfl <;> rfl
  refine ⟨⟨⟨mobile_number, set_password salt password, extra_fields⟩,
      db ++ [⟨mobile_number, set_password salt password, extra_fields⟩], false⟩,
    ?_, rfl, rfl, ⟨"Şifrə 8-15 simvol arasında olmalıdır.", rfl⟩⟩
  rw [create_user, if_neg (by simp [hm]), hgate, htr]

/-- C10, witness instance: an empty-string password bypasses the
strength check and the user is created. -/
theorem create_user_falsy_password_bypass_witness :
    ∃ r, create_user [] 7 "501234567" (some "") [] = Except.ok r ∧
      r.validatorRan = false ∧
      r.user.password = set_password 7 (some "") ∧
      ∃ e, validate_password_strength "" = Except.error e :=
  create_user_falsy_password_bypass [] 7 "501234567" [] (some "") rfl (Or.inr rfl)

/-- C6: a login with a known mobile number but a wrong password and a
login with an unknown mobile number produce the same response — HTTP
400 with the single credentials-invalid message — so the response
reveals nothing about which of the number or the password was wrong. -/
theorem login_no_credential_leak (db : List AuthUser) (u : AuthUser)
    (m1 p1 m2 p2 : String)
    (hm1 : m1.isEmpty = false) (hp1 : p1.isEmpty = false)
    (hm2 : m2.isEmpty = false) (hp2 : p2.isEmpty = false)
    (hfound : db.find? (fun x => x.mobile_number == m1) = some u)
    (hwrong : check_password p1 u.password = false)
    (habsent : db.find? (fun x => x.mobile_number == m2) = none) :
    LoginView_post db m1 p1 = LoginView_post db m2 p2 ∧
    LoginView_post db m1 p1 = LoginResponse.bad400 "Nömrə və ya şifrə yanlışdır." := by
  have h1 : LoginView_post db m1 p1 =
      LoginResponse.bad400 "Nömrə və ya şifrə yanlışdır." := by
    simp [LoginView_post, LoginSerializer_validate, authenticate,
      hm1, hp1, hfound, hwrong]
  have h2 : LoginView_post db m2 p2 =
      LoginResponse.bad400 "Nömrə və ya şifrə yanlışdır." := by
    simp [LoginView_post, LoginSerializer_validate, authenticate,
      hm2, hp2, habsent]
  exact ⟨h1.trans h2.symm, h1⟩

/-- C6, witness instance: with one stored user, a wrong-password login
against that user and a login under an unknown number return the same
400 credentials-invalid response. -/
theorem login_no_credential_leak_witness :
    LoginView_post
        [{ id := 1, first_name := "Ayan", last_name := "Quliyeva",
           mobile_number := "501234567",
           password := set_password 7 (some "Passw0rd!"), is_active := true }]
        "501234567" "wrongpass" =
      LoginView_post
        [{ id := 1, first_name := "Ayan", last_name := "Quliyeva",
           mobile_number := "501234567",
           password := set_password 7 (some "Passw0rd!"), is_active := true }]
        "509999999" "Passw0rd!" ∧
    LoginView_post
        [{ id := 1, first_name := "Ayan", last_name := "Quliyeva",
           mobile_number := "501234567",
           password := set_password 7 (some "Passw0rd!"), is_active := true }]
        "501234567" "wrongpass" =
      LoginResponse.bad400 "Nömrə və ya şifrə yanlışdır." :=
  login_no_credential_leak
    [{ id := 1, first_name := "Ayan", last_name := "Quliyeva",
       mobile_number := "501234567",
       password := set_password 7 (some "Passw0rd!"), is_active := true }]
    { id := 1, first_name := "Ayan", last_name := "Quliyeva",
      mobile_number := "501234567",
      password := set_password 7 (some "Passw0rd!"), is_active := true }
    "501234567" "wrongpass" "509999999" "Passw0rd!"
    rfl rfl rfl rfl rfl rfl rfl

/-- C7: for a login whose mobile number resolves to a user with a
matching password, an inactive account is rejected with the
account-disabled message — distinct from the credentials-invalid
message — and no 200 response carrying tokens is produced; an active
account receives HTTP 200 with the user summary and the token pair
bound to that user. -/
theorem login_active_gate (db : List AuthUser) (u : AuthUser) (m p : String)
    (hm : m.isEmpty = false) (hp : p.isEmpty = false)
    (hfound : db.find? (fun x => x.mobile_number == m) = some u)
    (hmatch : check_password p u.password = true) :
    (u.is_active = false →
      LoginView_post db m p = LoginResponse.bad400 "Hesab deaktiv olunub." ∧
      "Hesab deaktiv olunub." ≠ "Nömrə və ya şifrə yanlışdır." ∧
      ∀ body, LoginView_post db m p ≠ LoginResponse.ok200 body) ∧
    (u.is_active = true →
      LoginView_post db m p =
        LoginResponse.ok200
          { message := "Uğurlu giriş", id := u.id,
            full_name := u.first_name ++ " " ++ u.last_name,
            mobile_number := u.mobile_number,
            tokens := RefreshToken_for_user u }) := by
  refine ⟨fun hia => ⟨?_, by decide, ?_⟩, fun hia => ?_⟩
  · simp [LoginView_post, LoginSerializer_validate, authenticate,
      hm, hp, hfound, hmatch, hia]
  · intro body
    simp [LoginView_post, LoginSerializer_validate, authenticate,
      hm, hp, hfound, hmatch, hia]
  · simp [LoginView_post, LoginSerializer_validate, authenticate,
      hm, hp, hfound, hmatch, hia]

/-- C7, witness instances: an inactive user with correct credentials
gets the 400 account-disabled response; an active user gets the 200
response with summary and tokens. -/
theorem login_active_gate_witness :
    (LoginView_post
        [{ id := 2, first_name := "Elvin", last_name := "Orucov",
           mobile_number := "502222222",
           password := set_password 3 (some "Str0ng#Pass"), is_active := false }]
        "502222222" "Str0ng#Pass" =
      LoginResponse.bad400 "Hesab deaktiv olunub.") ∧
    (LoginView_post
        [{ id := 3, first_name := "Leyla", last_name := "Məmmədova",
           mobile_number := "503333333",
           password := set_password 4 (some "Str0ng#Pass"), is_active := true }]
        "503333333" "Str0ng#Pass" =
      LoginResponse.ok200
        { message := "Uğurlu giriş", id := 3,
          full_name := "Leyla" ++ " " ++ "Məmmədova",
          mobile_number := "503333333",
          tokens := RefreshToken_for_user
            { id := 3, first_name := "Leyla", last_name := "Məmmədova",
              mobile_number := "503333333",
              password := set_password 4 (some "Str0ng#Pass"), is_active := true } }) :=
  ⟨((login_active_gate
      [{ id := 2, first_name := "Elvin", last_name := "Orucov",
         mobile_number := "502222222",
         password := set_password 3 (some "Str0ng#Pass"), is_active := false }]
      { id := 2, first_name := "Elvin", last_name := "Orucov",
        mobile_number := "502222222",
        password := set_password 3 (some "Str0ng#Pass"), is_active := false }
      "502222222" "Str0ng#Pass" rfl rfl rfl rfl).1 rfl).1,
   (login_active_gate
      [{ id := 3, first_name := "Leyla", last_name := "Məmmədova",
         mobile_number := "503333333",
         password := set_password 4 (some "Str0ng#Pass"), is_active := true }]
      { id := 3, first_name := "Leyla", last_name := "Məmmədova",
        mobile_number := "503333333",
        password := set_password 4 (some "Str0ng#Pass"), is_active := true }
      "503333333" "Str0ng#Pass" rfl rfl rfl rfl).2 rfl⟩

/-- C4, witness instances: with education `"Orta"`, a missing major is
rejected as required and an all-letter major is accepted; with the
sentinel `"Yoxdur"`, a missing major passes unchecked. -/
theorem validate_education_major_spec_witness :
    validate_education_major (some "Orta") none =
      Except.error "Təhsil ixtisası daxil edilməlidir." ∧
    validate_education_major (some "Orta") (some "Riyaziyyat") =
      Except.ok (some "Riyaziyyat") ∧
    validate_education_major (some "Yoxdur") none = Except.ok none :=
  ⟨((validate_education_major_spec (some "Orta") none).1 (by decide)).1 (Or.inl rfl),
   (((validate_education_major_spec (some "Orta") (some "Riyaziyyat")).1 (by decide)).2
       "Riyaziyyat" rfl rfl).mpr (by decide),
   (validate_education_major_spec (some "Yoxdur") none).2 rfl⟩
